import Mathlib

set_option maxHeartbeats 1000000
set_option maxRecDepth 4000

/-
Verification development for the Genesys AudioHook collector service.
The repository contains two near-duplicate implementations of the same core:
collector.py (class Runner together with ElasticSink) and audiohook_collector.py
(class AudioHookCollector).  The definitions below are shallow embeddings of the
pure decision logic of both files; network transport and HTTP responses are
abstracted into explicit inputs (PostResult values and event scripts), and wall
clock time is passed explicitly as a rational number.
-/

namespace GenesysCollector

/-- JSON values as decoded from inbound frames.  Numbers are modelled as
integers, which covers every payload the claims exercise. -/
inductive JVal where
  | null
  | bool (b : Bool)
  | num (n : Int)
  | str (s : List Char)
  | arr (elems : List JVal)
  | obj (fields : List (List Char × JVal))

/-- Python truthiness of a JSON value: None, empty string, empty list, empty
dict, zero and False are falsy, everything else is truthy. -/
def truthy : JVal → Bool
  | .null => false
  | .bool b => b
  | .num n => decide (n ≠ 0)
  | .str s => !s.isEmpty
  | .arr xs => !xs.isEmpty
  | .obj fs => !fs.isEmpty

/-- Dictionary lookup returning the stored value when the key is present. -/
def jfind : List (List Char × JVal) → List Char → Option JVal
  | [], _ => none
  | (k, v) :: rest, key => if k = key then some v else jfind rest key

/-- Python dict.get(key): None when the key is absent. -/
def jget (fields : List (List Char × JVal)) (key : List Char) : JVal :=
  (jfind fields key).getD .null

/-- Python dict.get(key, default). -/
def jgetD (fields : List (List Char × JVal)) (key : List Char) (dflt : JVal) : JVal :=
  (jfind fields key).getD dflt

/-- Values that the extraction helper in collector.py treats as missing:
None, empty string, empty list, empty dict (source line 369). -/
def isEmptyLike : JVal → Bool
  | .null => true
  | .str [] => true
  | .arr [] => true
  | .obj [] => true
  | _ => false

/-- Embedding of Runner extract first nonempty (collector.py lines 365-371):
returns the first candidate key whose value is not empty-like. -/
def extract_first_nonempty (fields : List (List Char × JVal)) :
    List (List Char) → Option JVal
  | [] => none
  | k :: ks =>
    let v := jget fields k
    if isEmptyLike v then extract_first_nonempty fields ks else some v

/-- Python expression a or b. -/
def pyOr (a b : JVal) : JVal := if truthy a then a else b

/-- Python expression (x or "") applied to an optional extraction result. -/
def orEmptyJ : Option JVal → JVal
  | none => .str []
  | some v => if truthy v then v else .str []

/-- Python str.upper; raises (AttributeError) on any non-string value. -/
def pyUpperJ : JVal → Except Unit (List Char)
  | .str s => .ok (s.map Char.toUpper)
  | _ => .error ()

/-- Python str.lower; raises (AttributeError) on any non-string value. -/
def pyLowerJ : JVal → Except Unit (List Char)
  | .str s => .ok (s.map Char.toLower)
  | _ => .error ()

def quoteC : Char := Char.ofNat 39
def lbraceC : Char := Char.ofNat 123
def rbraceC : Char := Char.ofNat 125

mutual
/-- Python repr of a JSON value (string escaping is not modelled; no claim
depends on repr output of containers). -/
def pyRepr : JVal → List Char
  | .null => "None".data
  | .bool true => "True".data
  | .bool false => "False".data
  | .num n => (toString n).data
  | .str s => quoteC :: (s ++ [quoteC])
  | .arr xs => '[' :: (pyReprList xs ++ [']'])
  | .obj fs => lbraceC :: (pyReprFields fs ++ [rbraceC])

def pyReprList : List JVal → List Char
  | [] => []
  | [v] => pyRepr v
  | v :: w :: rest => pyRepr v ++ ',' :: ' ' :: pyReprList (w :: rest)

def pyReprFields : List (List Char × JVal) → List Char
  | [] => []
  | [(k, v)] => quoteC :: k ++ quoteC :: ':' :: ' ' :: pyRepr v
  | (k, v) :: e :: rest =>
      (quoteC :: k ++ quoteC :: ':' :: ' ' :: pyRepr v) ++ ',' :: ' ' :: pyReprFields (e :: rest)
end

/-- Python str() of a JSON value. -/
def pyStr : JVal → List Char
  | .str s => s
  | v => pyRepr v

/-- Lowercase a character list (Python str.lower on ASCII content). -/
def lowerL (s : List Char) : List Char := s.map Char.toLower

/-- Boolean substring test mirroring the Python in operator on strings. -/
def hasSub (pat : List Char) : List Char → Bool
  | [] => pat.isPrefixOf []
  | c :: rest => pat.isPrefixOf (c :: rest) || hasSub pat rest

def kwAudiohook : List Char := "audiohook".data

/-- The classification heuristic of Runner.handle_event (collector.py lines
393-394): the keyword occurs in the lowercased concatenation of the code
string, a space and the component string, or in the already lowered topic. -/
def is_audiohook_heuristic (codeS compS topicLow : List Char) : Bool :=
  hasSub kwAudiohook (lowerL (codeS ++ ' ' :: compS)) || hasSub kwAudiohook topicLow

/-- Modelled from the spec: an event is target category if a case-insensitive
match for the domain keyword appears in the code field, the component field,
or the topic name (spec section 4.2 step 3). -/
def specClassify (codeS compS topicS : List Char) : Bool :=
  hasSub kwAudiohook (lowerL codeS) ||
    (hasSub kwAudiohook (lowerL compS) || hasSub kwAudiohook (lowerL topicS))

/-- Severity buckets used by the counters in Runner.handle_event
(collector.py lines 399-404). -/
inductive SevBucket where
  | errB
  | warnB
  | infoB
deriving DecidableEq

/-- Counter classification of an uppercased severity string: the alias sets
are fixed, anything unrecognized counts as info (collector.py lines 399-404). -/
def sevClassify (s : List Char) : SevBucket :=
  if s = "ERROR".data ∨ s = "CRITICAL".data ∨ s = "SEVERE".data then .errB
  else if s = "WARN".data ∨ s = "WARNING".data then .warnB
  else .infoB

/-- The normalized document built by Runner.handle_event (collector.py lines
406-421).  The timestamp field is produced by a clock call and is omitted. -/
structure NormDoc where
  topic : JVal
  channel : Option (List Char)
  code : Option JVal
  severity : List Char
  entityId : Option JVal
  integrationId : Option JVal
  component : Option JVal
  isAudioHook : Bool
  event : List (List Char × JVal)

structure NormResult where
  doc : NormDoc
  bucket : SevBucket

def kTopicName : List Char := "topicName".data
def kTopic : List Char := "topic".data
def kEventBody : List Char := "eventBody".data
def kBody : List Char := "body".data
def kURaw : List Char := "_raw".data
def kRaw : List Char := "raw".data
def kSeverity : List Char := "severity".data
def kEventEntity : List Char := "eventEntity".data
def kId : List Char := "id".data
def kName : List Char := "name".data
def kEntityType : List Char := "entityType".data

def codeKeys : List (List Char) :=
  ["eventDefinitionId".data, "code".data, "eventId".data]
def sevKeys : List (List Char) :=
  ["severity".data, "level".data, "logLevel".data]
def entKeys : List (List Char) :=
  ["entityId".data, "conversationId".data, "deploymentId".data, "sessionId".data]
def intgKeys : List (List Char) :=
  ["integrationId".data, "integration".data, "integrationName".data]
def compKeys : List (List Char) :=
  ["component".data, "source".data, "service".data]

/-- topic = payload.get("topicName") or payload.get("topic")
(collector.py line 376). -/
def topicValOf (fields : List (List Char × JVal)) : JVal :=
  pyOr (jget fields kTopicName) (jget fields kTopic)

/-- body = payload.get("eventBody") or payload.get("body") or payload
(collector.py line 377). -/
def bodyValOf (fields : List (List Char × JVal)) : JVal :=
  pyOr (jget fields kEventBody) (pyOr (jget fields kBody) (.obj fields))

/-- ev = body if isinstance(body, dict) else a singleton dict under the key
_raw (collector.py lines 379-383). -/
def evFieldsOf (fields : List (List Char × JVal)) : List (List Char × JVal) :=
  match bodyValOf fields with
  | .obj fs => fs
  | v => [(kURaw, v)]

/-- The value fed to .upper() on collector.py line 387, before uppercasing. -/
def sevValOf (fields : List (List Char × JVal)) : JVal :=
  orEmptyJ (extract_first_nonempty (evFieldsOf fields) sevKeys)

/-- Embedding of Runner.handle_event (collector.py lines 373-422).  The two
raise points are the .upper() call on the extracted severity (line 387) and
the .lower() call on the topic (line 394); a payload that is not a dict raises
at the first .get (line 376).  The enqueue call is represented by returning
the built document; the counter update is represented by the bucket field. -/
def handle_event (chan : Option (List Char)) (payload : JVal) :
    Except Unit NormResult :=
  match payload with
  | .obj fields =>
    match pyUpperJ (sevValOf fields), pyLowerJ (pyOr (topicValOf fields) (.str [])) with
    | .ok sev, .ok topicLow =>
      let ev := evFieldsOf fields
      let code := extract_first_nonempty ev codeKeys
      let ent := extract_first_nonempty ev entKeys
      let intg := extract_first_nonempty ev intgKeys
      let comp := extract_first_nonempty ev compKeys
      let isAh := is_audiohook_heuristic (pyStr (orEmptyJ code)) (pyStr (orEmptyJ comp)) topicLow
      .ok { doc := { topic := topicValOf fields
                     channel := chan
                     code := code
                     severity := sev
                     entityId := ent
                     integrationId := intg
                     component := comp
                     isAudioHook := isAh
                     event := ev }
            bucket := sevClassify sev }
    | .error e, _ => .error e
    | _, .error e => .error e
  | _ => .error ()

/-- Severity field of a normalization result, empty on a raise. -/
def sevOfResult : Except Unit NormResult → List Char
  | .ok r => r.doc.severity
  | .error _ => []

/-- Classification flag of a normalization result, false on a raise. -/
def ahFlagOfResult : Except Unit NormResult → Bool
  | .ok r => r.doc.isAudioHook
  | .error _ => false

/-- True when the normalizer returned a document rather than raising. -/
def okOfResult : Except Unit NormResult → Bool
  | .ok _ => true
  | .error _ => false

/-- A value that survives the (x or "") idiom without a type error: either
falsy (replaced by the empty string) or already a string. -/
def strOrFalsy (v : JVal) : Bool :=
  !truthy v || (match v with | .str _ => true | _ => false)

/-- Embedding of AudioHookCollector.is_audiohook_event (audiohook_collector.py
lines 246-260).  event_id.startswith is case sensitive; a non-string id,
entityType or name raises, and a non-dict eventEntity raises at .get. -/
def is_audiohook_event (evFields : List (List Char × JVal)) : Except Unit Bool :=
  match jgetD evFields kEventEntity (.obj []) with
  | .obj eeFields =>
    match jgetD eeFields kId (.str []) with
    | .str eid =>
      if "AUDIOHOOK-".data.isPrefixOf eid then .ok true
      else
        match jgetD evFields kEntityType (.str []), jgetD eeFields kName (.str []) with
        | .str et, .str en =>
            .ok (hasSub kwAudiohook (lowerL et) || hasSub kwAudiohook (lowerL en))
        | _, _ => .error ()
    | _ => .error ()
  | _ => .error ()

/-- Embedding of AudioHookCollector.handle_websocket_message
(audiohook_collector.py lines 349-371).  Returns whether the message was
classified as an AudioHook event (and hence written); a falsy or non-dict
event body is ignored.  Raises propagate as .error. -/
def handle_websocket_message (message : JVal) : Except Unit Bool :=
  match message with
  | .obj fields =>
    match jgetD fields kEventBody (.obj []) with
    | .obj evFields =>
      if truthy (.obj evFields) then is_audiohook_event evFields else .ok false
    | _ => .ok false
  | _ => .error ()

/- ----------------------------------------------------------------------
Inbound frame handling inside the websocket loops.
---------------------------------------------------------------------- -/

/-- One inbound websocket frame: a text frame carries the raw text and the
result of JSON decoding it (none when decoding fails), other frame types end
the stream. -/
inductive Frame where
  | text (raw : List Char) (decoded : Option JVal)
  | closeOrErr

/-- The payload substituted on a JSON decode failure in collector.py line 344:
a dict holding the raw text under the key raw. -/
def rawWrapPayload (raw : List Char) : JVal :=
  .obj [(kRaw, .str raw)]

/-- The document that collector.py produces for a decode-failure frame. -/
def rawWrapDoc (chan : Option (List Char)) (raw : List Char) : NormDoc :=
  { topic := .null
    channel := chan
    code := none
    severity := []
    entityId := none
    integrationId := none
    component := none
    isAudioHook := false
    event := [(kRaw, .str raw)] }

/-- Stream-level state of the collector.py websocket loop while a stream is
open: whether the async-for is still running and the documents enqueued so
far.  collector.py keeps no reconnect counter. -/
structure ColStream where
  streamOpen : Bool
  enqueued : List NormDoc

/-- One frame iteration of Runner._ws_loop (collector.py lines 339-348).  A
text frame is JSON decoded; on failure the raw text is wrapped (line 344) and
the payload is still handed to handle_event and enqueued.  An exception from
handle_event propagates and closes the stream (caught at line 349); a close or
error frame breaks the loop. -/
def colFrameStep (chan : Option (List Char)) (s : ColStream) (f : Frame) : ColStream :=
  if s.streamOpen then
    match f with
    | .text raw dec =>
      let payload := match dec with
        | some j => j
        | none => rawWrapPayload raw
      match handle_event chan payload with
      | .ok r => { s with enqueued := s.enqueued ++ [r.doc] }
      | .error _ => { streamOpen := false, enqueued := s.enqueued }
    | .closeOrErr => { s with streamOpen := false }
  else s

/-- Stream-level state of the audiohook_collector.py websocket loop, with the
stats counters the claims mention. -/
structure AhStream where
  streamOpen : Bool
  eventsTotal : Nat
  classified : Nat
  reconnects : Nat

/-- One frame iteration of AudioHookCollector.websocket_loop
(audiohook_collector.py lines 388-397).  A JSON decode failure is logged and
the frame is dropped; an exception from handle_websocket_message propagates
and ends the stream; the reconnect counter is only touched in the reconnect
block after the stream ends, never per frame. -/
def ahFrameStep (s : AhStream) (f : Frame) : AhStream :=
  if s.streamOpen then
    match f with
    | .text _ none => s
    | .text _ (some j) =>
      match handle_websocket_message j with
      | .ok c =>
          { s with eventsTotal := s.eventsTotal + 1
                   classified := s.classified + (if c then 1 else 0) }
      | .error _ => { s with eventsTotal := s.eventsTotal + 1, streamOpen := false }
    | .closeOrErr => { s with streamOpen := false }
  else s

/- ----------------------------------------------------------------------
Elastic bulk sink: flush outcome policy and the worker loop.
---------------------------------------------------------------------- -/

/-- Sink configuration: BULK_MAX_DOCS, BULK_MAX_SECONDS, RETRY_BASE_SLEEP. -/
structure SinkCfg where
  maxDocs : Nat
  maxSeconds : ℚ
  retryBaseSleep : ℚ

/-- Outcome of parsing a bulk response body: a JSON body with or without the
per-item errors flag, or a body that fails to parse as JSON. -/
inductive BulkBody where
  | parsed (errorsFlag : Bool)
  | unparseable

/-- Result of one POST attempt to the bulk endpoint, as seen by the worker:
an HTTP status with a body, or a transport-level exception. -/
inductive PostResult where
  | resp (status : Nat) (body : BulkBody)
  | exn

/-- The transient statuses of collector.py line 212. -/
def isTransient (s : Nat) : Bool :=
  decide (s = 429) || decide (s = 500) || decide (s = 502) ||
    decide (s = 503) || decide (s = 504)

/-- Counter and control effects of one flush over a nonempty batch. -/
structure BulkOutcome where
  sentInc : Nat
  errInc : Nat
  posts : Nat
  sleeps : List ℚ

/-- Outcome policy of the flush closure in ElasticSink._worker (collector.py
lines 197-228) for a nonempty batch of docCount documents: 200/201 bodies are
inspected for the errors flag (an unparseable body only warns); a transient
status sleeps RETRY_BASE_SLEEP and retries exactly once, the retry failing
terminally when its status is at least 300; any other status or a transport
exception is a terminal error. -/
def flushCore (cfg : SinkCfg) (docCount : Nat) : PostResult → PostResult → BulkOutcome
  | .exn, _ => ⟨0, 1, 1, []⟩
  | .resp s body, r2 =>
    if s = 200 ∨ s = 201 then
      match body with
      | .parsed true => ⟨0, 1, 1, []⟩
      | .parsed false => ⟨docCount, 0, 1, []⟩
      | .unparseable => ⟨0, 0, 1, []⟩
    else if isTransient s then
      match r2 with
      | .exn => ⟨0, 1, 2, [cfg.retryBaseSleep]⟩
      | .resp s2 _ =>
        if 300 ≤ s2 then ⟨0, 1, 2, [cfg.retryBaseSleep]⟩
        else ⟨docCount, 0, 2, [cfg.retryBaseSleep]⟩
    else ⟨0, 1, 1, []⟩

/-- Full effect of one flush call (collector.py lines 191-230): the pending
list holds one action line and one source line per document, a flush on an
empty pending list returns immediately without a POST, and in every other
case the pending list is cleared afterwards.  r1 is the response to the first
POST and r2 to the retry POST, consumed only when a retry happens. -/
structure FlushOut where
  sentInc : Nat
  errInc : Nat
  posts : Nat
  sleeps : List ℚ
  pendingAfter : List (List Char)

def flushStep (cfg : SinkCfg) (pending : List (List Char)) (r1 r2 : PostResult) : FlushOut :=
  match pending with
  | [] => ⟨0, 0, 0, [], []⟩
  | _ :: _ =>
    let o := flushCore cfg (pending.length / 2) r1 r2
    ⟨o.sentInc, o.errInc, o.posts, o.sleeps, []⟩

/-- Worker loop state of ElasticSink._worker: the pending action/source lines,
the time of the last flush, the current time, and the two sink counters. -/
structure WIterState where
  pending : List (List Char)
  lastFlush : ℚ
  now : ℚ
  sent : Nat
  errors : Nat

/-- One wakeup of the worker: either queue.get returned an action/source pair
after waiting dt seconds, or the wait timed out. -/
inductive WInput where
  | recv (dt : ℚ) (action source : List Char)
  | timeout

/-- The wait timeout computed on collector.py line 234. -/
def waitTimeout (cfg : SinkCfg) (st : WIterState) : ℚ :=
  max (1/10) (cfg.maxSeconds - (st.now - st.lastFlush))

/-- The clock value when the loop reaches the flush check. -/
def wInputNow (cfg : SinkCfg) (st : WIterState) : WInput → ℚ
  | .recv dt _ _ => st.now + dt
  | .timeout => st.now + waitTimeout cfg st

/-- The pending list when the loop reaches the flush check: a received pair
appends the action line and then the source line (collector.py lines 236-238). -/
def wInputPending (st : WIterState) : WInput → List (List Char)
  | .recv _ a s => st.pending ++ [a, s]
  | .timeout => st.pending

/-- The flush trigger of collector.py line 241: pending length reaches
BULK_MAX_DOCS * 2, or the elapsed time since the last flush reaches
BULK_MAX_SECONDS. -/
def flushTriggered (cfg : SinkCfg) (st : WIterState) (inp : WInput) : Bool :=
  decide (cfg.maxDocs * 2 ≤ (wInputPending st inp).length) ||
    decide (cfg.maxSeconds ≤ wInputNow cfg st inp - st.lastFlush)

/-- State effect of one iteration of the worker loop body (collector.py lines
233-242).  When the trigger holds, flush runs: on an empty pending list it
returns without updating last_flush; otherwise the counters are bumped, the
retry sleep is added to the clock, and last_flush is set to the time after
the flush. -/
def workerIterState (cfg : SinkCfg) (st : WIterState) (inp : WInput) (r1 r2 : PostResult) :
    WIterState :=
  let now1 := wInputNow cfg st inp
  let pending1 := wInputPending st inp
  if flushTriggered cfg st inp then
    match pending1 with
    | [] => { st with pending := [], now := now1 }
    | p :: ps =>
      let f := flushStep cfg (p :: ps) r1 r2
      let now2 := now1 + f.sleeps.sum
      { pending := []
        lastFlush := now2
        now := now2
        sent := st.sent + f.sentInc
        errors := st.errors + f.errInc }
  else { st with pending := pending1, now := now1 }

/-- One iteration of the worker loop body, paired with whether flush was
called in this iteration (collector.py line 241-242: flush is called exactly
when the trigger condition holds). -/
def workerIter (cfg : SinkCfg) (st : WIterState) (inp : WInput) (r1 r2 : PostResult) :
    WIterState × Bool :=
  (workerIterState cfg st inp r1 r2, flushTriggered cfg st inp)

/-- Run the worker over a script of wakeups and POST responses, counting the
number of iterations in which flush was called. -/
def workerRun (cfg : SinkCfg) (st : WIterState) :
    List (WInput × PostResult × PostResult) → WIterState × Nat
  | [] => (st, 0)
  | (inp, r1, r2) :: rest =>
    let (st1, fl) := workerIter cfg st inp r1 r2
    let (st2, n) := workerRun cfg st1 rest
    (st2, (if fl then 1 else 0) + n)

/-- Snapshot of one worker together with the shared intake queue, for the
shutdown analysis: queue entries are the action/source pairs still waiting in
asyncio.Queue. -/
structure SinkSnap where
  queue : List (List Char × List Char)
  pending : List (List Char)
  sent : Nat
  errors : Nat

/-- Clean shutdown of a worker (collector.py lines 175-184 and 243-244):
ElasticSink.start cancels the worker at its queue.get suspension point; the
CancelledError handler runs one final flush over the pending batch.  Nothing
dequeues the intake queue during cancellation. -/
def cancelFinalFlush (cfg : SinkCfg) (s : SinkSnap) (r1 r2 : PostResult) : SinkSnap :=
  let f := flushStep cfg s.pending r1 r2
  { queue := s.queue
    pending := f.pendingAfter
    sent := s.sent + f.sentInc
    errors := s.errors + f.errInc }

/- ----------------------------------------------------------------------
Connection supervisor: reconnect, channel recreation, backoff.
---------------------------------------------------------------------- -/

/-- Supervisor state of Runner._ws_loop (collector.py lines 325-362),
abstracting channels by a counter: uri is the current connect address, fresh
is the next address create_channel would return, closed lists the addresses
whose streams have closed, opens logs each ws_connect attempt together with
whether its address belonged to an already closed channel, and recreates
counts the create_channel calls made after a closure. -/
structure ColSup where
  uri : Nat
  fresh : Nat
  closed : List Nat
  opens : List (Nat × Bool)
  recreates : Nat

/-- One iteration of the collector.py reconnect loop: connect to the current
uri, stream until closure, then always attempt create_channel + resubscribe
(lines 354-362).  When the attempt fails the old uri is kept and reused on
the next iteration. -/
def colSupIter (s : ColSup) (recreateOk : Bool) : ColSup :=
  { uri := if recreateOk then s.fresh else s.uri
    fresh := if recreateOk then s.fresh + 1 else s.fresh
    closed := s.uri :: s.closed
    opens := s.opens ++ [(s.uri, decide (s.uri ∈ s.closed))]
    recreates := s.recreates + 1 }

/-- Initial supervisor state: the channel created before the loop
(collector.py line 327). -/
def colSupInit : ColSup :=
  { uri := 0, fresh := 1, closed := [], opens := [], recreates := 0 }

def colSupRun (evs : List Bool) : ColSup := List.foldl colSupIter colSupInit evs

/-- Supervisor state of AudioHookCollector.websocket_loop (audiohook_collector
lines 373-413): ws_url is cleared after every closure, forcing recreation. -/
structure AhSup where
  url : Option Nat
  fresh : Nat
  closed : List Nat
  opens : List (Nat × Bool)

/-- One iteration of the audiohook_collector.py reconnect loop: when ws_url is
unset, setup_notification_channel runs first; a setup failure raises and skips
the connect; after any stream closure channel_id and ws_url are reset to None
(lines 411-413). -/
def ahSupIter (s : AhSup) (setupOk : Bool) : AhSup :=
  match s.url with
  | none =>
    if setupOk then
      { url := none
        fresh := s.fresh + 1
        closed := s.fresh :: s.closed
        opens := s.opens ++ [(s.fresh, decide (s.fresh ∈ s.closed))] }
    else s
  | some u =>
      { url := none
        fresh := s.fresh
        closed := u :: s.closed
        opens := s.opens ++ [(u, decide (u ∈ s.closed))] }

def ahSupInit : AhSup := { url := none, fresh := 0, closed := [], opens := [] }

def ahSupRun (evs : List Bool) : AhSup := List.foldl ahSupIter ahSupInit evs

/-- True when no logged connect attempt used an already closed address. -/
def noStaleOpens (opens : List (Nat × Bool)) : Bool :=
  opens.all (fun pr => !pr.2)

/- ----------------------------------------------------------------------
Reconnect backoff.
---------------------------------------------------------------------- -/

/-- Backoff configuration: RETRY_BASE_SLEEP as floor, the growth factor, and
RETRY_MAX_SLEEP as ceiling. -/
structure BackoffCfg where
  floorV : ℚ
  growth : ℚ
  ceilV : ℚ

/-- backoff = min(backoff * growth, RETRY_MAX_SLEEP) (collector.py line 353). -/
def backoffNext (cfg : BackoffCfg) (b : ℚ) : ℚ :=
  min (b * cfg.growth) cfg.ceilV

/-- One iteration of the reconnect loop as it affects the backoff delay: on a
successful connect the delay is reset to the floor (collector.py line 338)
before the eventual closure; the iteration sleeps the current delay and then
grows it.  Returns the sleep performed and the next delay. -/
def wsIterBackoff (cfg : BackoffCfg) (b : ℚ) (connected : Bool) : ℚ × ℚ :=
  let b1 := if connected then cfg.floorV else b
  (b1, backoffNext cfg b1)

/-- The sleep before the nth reconnect across consecutive failures, starting
from delay b0. -/
def failSleep (cfg : BackoffCfg) (b0 : ℚ) : Nat → ℚ
  | 0 => b0
  | n + 1 => backoffNext cfg (failSleep cfg b0 n)

/-- The collector.py defaults: RETRY_BASE_SLEEP = 1.5, growth 1.7,
RETRY_MAX_SLEEP = 30. -/
def cfgColBackoff : BackoffCfg := ⟨3/2, 17/10, 30⟩

/- ----------------------------------------------------------------------
Auxiliary definitions used by the theorems.
---------------------------------------------------------------------- -/

/-- Bucket of a normalization result, info on a raise. -/
def bucketOfResult : Except Unit NormResult → SevBucket
  | .ok r => r.bucket
  | .error _ => .infoB

/-- Invariant of the collector.py supervisor under always-successful channel
recreation: the current address is fresh and no logged open was stale. -/
def ColInv (s : ColSup) : Prop :=
  s.uri ∉ s.closed ∧ s.uri < s.fresh ∧ (∀ c ∈ s.closed, c < s.fresh) ∧
    (∀ pr ∈ s.opens, pr.2 = false)

/-- Invariant of the audiohook_collector.py supervisor: the address is always
cleared between streams and no logged open was stale. -/
def AhInv (s : AhSup) : Prop :=
  s.url = none ∧ (∀ c ∈ s.closed, c < s.fresh) ∧ (∀ pr ∈ s.opens, pr.2 = false)

/-- Example sink configuration from the claim text: BULK_MAX_DOCS = 3,
BULK_MAX_SECONDS = 100, RETRY_BASE_SLEEP = 1.5. -/
def cfgEx : SinkCfg := ⟨3, 100, 3/2⟩

/-- A fully successful bulk response. -/
def okResp : PostResult := .resp 200 (.parsed false)

/-- Three documents arriving instantly at time zero. -/
def c5script : List (WInput × PostResult × PostResult) :=
  [(.recv 0 "a1".data "s1".data, okResp, okResp),
   (.recv 0 "a2".data "s2".data, okResp, okResp),
   (.recv 0 "a3".data "s3".data, okResp, okResp)]

/- ----------------------------------------------------------------------
Helper lemmas.
---------------------------------------------------------------------- -/

/-- A pattern without a space is a prefix of x, a space, then y exactly when
it is a prefix of x. -/
theorem isPrefixOf_append_space : ∀ (pat x y : List Char), ' ' ∉ pat →
    pat.isPrefixOf (x ++ ' ' :: y) = pat.isPrefixOf x
  | [], x, y, _ => by simp [List.isPrefixOf]
  | p :: pt, [], y, h => by
      have hp' : p ≠ ' ' := fun he => h (by rw [he]; exact List.mem_cons_self _ _)
      have hp : (p == ' ') = false := beq_eq_false_iff_ne.mpr hp'
      simp [List.isPrefixOf, hp]
  | p :: pt, c :: xt, y, h => by
      have ih := isPrefixOf_append_space pt xt y (fun hm => h (List.mem_cons_of_mem p hm))
      simp [List.isPrefixOf, ih]

/-- A nonempty pattern without a space occurs in x, a space, then y exactly
when it occurs in x or occurs in y. -/
theorem hasSub_append_space : ∀ (pat x y : List Char), ' ' ∉ pat → pat ≠ [] →
    hasSub pat (x ++ ' ' :: y) = (hasSub pat x || hasSub pat y)
  | pat, [], y, h, hne => by
      cases pat with
      | nil => exact absurd rfl hne
      | cons p pt =>
        have hp' : p ≠ ' ' := fun he => h (by rw [he]; exact List.mem_cons_self _ _)
        have hp : (p == ' ') = false := beq_eq_false_iff_ne.mpr hp'
        simp [hasSub, List.isPrefixOf, hp]
  | pat, c :: xt, y, h, hne => by
      have ih := hasSub_append_space pat xt y h hne
      have hpre := isPrefixOf_append_space pat (c :: xt) y h
      simp only [List.cons_append] at hpre ⊢
      simp [hasSub, ih, hpre, Bool.or_assoc]

/-- Lowercasing distributes over the space-separated concatenation. -/
theorem lowerL_append_space (a b : List Char) :
    lowerL (a ++ ' ' :: b) = lowerL a ++ ' ' :: lowerL b := by
  have h : Char.toLower ' ' = ' ' := by decide
  simp [lowerL, h]

/-- The collector.py heuristic on the lowered topic agrees with the predicate
that the spec describes field by field. -/
theorem heuristic_eq_specClassify (a b t : List Char) :
    is_audiohook_heuristic a b (lowerL t) = specClassify a b t := by
  have h1 : ' ' ∉ kwAudiohook := by decide
  have h2 : kwAudiohook ≠ [] := by decide
  unfold is_audiohook_heuristic specClassify
  rw [lowerL_append_space, hasSub_append_space _ _ _ h1 h2, Bool.or_assoc]

/-- Every flush leaves the pending list empty. -/
theorem flushStep_pendingAfter (cfg : SinkCfg) (p : List (List Char)) (r1 r2 : PostResult) :
    (flushStep cfg p r1 r2).pendingAfter = [] := by
  cases p <;> rfl

/-- The supervisor attempts channel recreation exactly once per closure. -/
theorem colSupRun_recreates_aux : ∀ (evs : List Bool) (s : ColSup),
    (List.foldl colSupIter s evs).recreates = s.recreates + evs.length
  | [], s => by simp
  | e :: evs, s => by
      rw [List.foldl_cons, colSupRun_recreates_aux evs]
      simp [colSupIter]
      omega

/-- A successful recreation step preserves the collector supervisor invariant. -/
theorem colSupIter_inv (s : ColSup) (h : ColInv s) : ColInv (colSupIter s true) := by
  obtain ⟨h1, h2, h3, h4⟩ := h
  refine ⟨?_, ?_, ?_, ?_⟩
  · intro hm
    simp only [colSupIter, if_pos] at hm
    rcases List.mem_cons.mp hm with he | hc
    · exact (Nat.ne_of_lt h2).symm he
    · exact absurd (h3 _ hc) (lt_irrefl _)
  · exact Nat.lt_succ_self _
  · intro c hc
    simp only [colSupIter, if_pos] at hc ⊢
    rcases List.mem_cons.mp hc with he | hcc
    · exact he ▸ Nat.lt_succ_of_lt h2
    · exact Nat.lt_succ_of_lt (h3 _ hcc)
  · intro pr hm
    simp only [colSupIter, if_pos] at hm
    rcases List.mem_append.mp hm with ho | hn
    · exact h4 _ ho
    · rw [List.mem_singleton.mp hn]
      exact decide_eq_false h1

/-- The invariant holds of the initial collector supervisor state. -/
theorem colSupInit_inv : ColInv colSupInit := by
  refine ⟨List.not_mem_nil _, Nat.one_pos, ?_, ?_⟩
  · intro c hc
    exact absurd hc (List.not_mem_nil _)
  · intro pr hm
    exact absurd hm (List.not_mem_nil _)

/-- Under always-successful recreation the invariant is maintained. -/
theorem colSupRun_inv_aux : ∀ (evs : List Bool) (s : ColSup), evs.all id = true →
    ColInv s → ColInv (List.foldl colSupIter s evs)
  | [], _, _, h => h
  | e :: evs, s, hall, h => by
      rw [List.all_cons, Bool.and_eq_true] at hall
      obtain ⟨he, hrest⟩ := hall
      have he' : e = true := he
      subst he'
      rw [List.foldl_cons]
      exact colSupRun_inv_aux evs _ hrest (colSupIter_inv s h)

/-- Every step preserves the audiohook supervisor invariant. -/
theorem ahSupIter_inv (s : AhSup) (e : Bool) (h : AhInv s) : AhInv (ahSupIter s e) := by
  obtain ⟨h1, h2, h3⟩ := h
  unfold ahSupIter
  rw [h1]
  cases e with
  | false => exact ⟨h1, h2, h3⟩
  | true =>
    refine ⟨rfl, ?_, ?_⟩
    · intro c hc
      rcases List.mem_cons.mp hc with he | hcc
      · exact he ▸ Nat.lt_succ_self _
      · exact Nat.lt_succ_of_lt (h2 _ hcc)
    · intro pr hm
      rcases List.mem_append.mp hm with ho | hn
      · exact h3 _ ho
      · rw [List.mem_singleton.mp hn]
        exact decide_eq_false (fun hmem => absurd (h2 _ hmem) (lt_irrefl _))

/-- The invariant holds of the initial audiohook supervisor state. -/
theorem ahSupInit_inv : AhInv ahSupInit := by
  refine ⟨rfl, ?_, ?_⟩
  · intro c hc
    exact absurd hc (List.not_mem_nil _)
  · intro pr hm
    exact absurd hm (List.not_mem_nil _)

/-- The audiohook supervisor invariant is maintained along any run. -/
theorem ahSupRun_inv_aux : ∀ (evs : List Bool) (s : AhSup),
    AhInv s → AhInv (List.foldl ahSupIter s evs)
  | [], _, h => h
  | e :: evs, s, h => by
      rw [List.foldl_cons]
      exact ahSupRun_inv_aux evs _ (ahSupIter_inv s e h)

/-- Pointwise staleness flags convert to the Boolean scan. -/
theorem noStaleOpens_of_forall (opens : List (Nat × Bool))
    (h : ∀ pr ∈ opens, pr.2 = false) : noStaleOpens opens = true := by
  unfold noStaleOpens
  rw [List.all_eq_true]
  intro pr hm
  rw [h pr hm]
  rfl

/-- The backoff delay stays within the configured band. -/
theorem failSleep_bounds : ∀ n : Nat,
    0 ≤ failSleep cfgColBackoff (3/2) n ∧ failSleep cfgColBackoff (3/2) n ≤ 30
  | 0 => by constructor <;> norm_num [failSleep]
  | n + 1 => by
      obtain ⟨h0, h30⟩ := failSleep_bounds n
      constructor
      · show (0:ℚ) ≤ min (failSleep cfgColBackoff (3/2) n * (17/10)) 30
        exact le_min (mul_nonneg h0 (by norm_num)) (by norm_num)
      · show min (failSleep cfgColBackoff (3/2) n * (17/10)) 30 ≤ (30:ℚ)
        exact min_le_right _ _

/-- The backoff delay never decreases across consecutive failures. -/
theorem failSleep_mono (n : Nat) :
    failSleep cfgColBackoff (3/2) n ≤ failSleep cfgColBackoff (3/2) (n + 1) := by
  obtain ⟨h0, h30⟩ := failSleep_bounds n
  show failSleep cfgColBackoff (3/2) n ≤ min (failSleep cfgColBackoff (3/2) n * (17/10)) 30
  exact le_min (le_mul_of_one_le_right h0 (by norm_num)) h30

/-- A string-or-falsy value guarded by the (x or empty) idiom is a string. -/
theorem truthyOr_str (v : JVal) (h : strOrFalsy v = true) :
    ∃ s, (if truthy v then v else JVal.str []) = .str s := by
  by_cases hv : truthy v = true
  · unfold strOrFalsy at h
    rw [hv] at h
    simp only [Bool.not_true, Bool.false_or] at h
    cases v with
    | str s => exact ⟨s, by rw [if_pos hv]⟩
    | null => exact absurd h Bool.false_ne_true
    | bool b => exact absurd h Bool.false_ne_true
    | num n => exact absurd h Bool.false_ne_true
    | arr xs => exact absurd h Bool.false_ne_true
    | obj fs => exact absurd h Bool.false_ne_true
  · exact ⟨[], by rw [if_neg hv]⟩

/-- When the extracted severity is string-or-falsy, the severity expression
evaluates to a string value. -/
theorem sevValOf_str (fields : List (List Char × JVal))
    (h : strOrFalsy (sevValOf fields) = true) : ∃ s, sevValOf fields = .str s := by
  unfold sevValOf at h ⊢
  rcases ho : extract_first_nonempty (evFieldsOf fields) sevKeys with _ | v
  · exact ⟨[], rfl⟩
  · rw [ho] at h
    have h' : strOrFalsy (if truthy v then v else JVal.str []) = true := h
    by_cases hv : truthy v = true
    · have hsv : strOrFalsy v = true := by rwa [if_pos hv] at h'
      obtain ⟨s, hs⟩ := truthyOr_str v hsv
      exact ⟨s, hs⟩
    · exact ⟨[], by show (if truthy v then v else JVal.str []) = _; rw [if_neg hv]⟩

/-- When the topic value is string-or-falsy, the lowered topic expression
evaluates to a string value. -/
theorem topicOr_str (fields : List (List Char × JVal))
    (h : strOrFalsy (topicValOf fields) = true) :
    ∃ s, pyOr (topicValOf fields) (.str []) = .str s :=
  truthyOr_str (topicValOf fields) h

/- ----------------------------------------------------------------------
Claim theorems.
---------------------------------------------------------------------- -/

/-- Claim C1, counterexample: a clean shutdown with one document still in the
intake queue and an empty pending batch leaves that document in the queue with
neither counter incremented, so it has no terminal outcome.  This refutes the
claim that after the final flush no document remains in the intake queue. -/
theorem C1_shutdown_counterexample :
    (cancelFinalFlush cfgEx ⟨[("a".data, "s".data)], [], 0, 0⟩ okResp okResp).queue =
      [("a".data, "s".data)] ∧
    (cancelFinalFlush cfgEx ⟨[("a".data, "s".data)], [], 0, 0⟩ okResp okResp).sent = 0 ∧
    (cancelFinalFlush cfgEx ⟨[("a".data, "s".data)], [], 0, 0⟩ okResp okResp).errors = 0 :=
  ⟨rfl, rfl, rfl⟩

/-- Claim C1, amended: on clean shutdown the cancellation handler flushes the
pending partial batch, leaving the pending buffer empty, but the intake queue
is untouched, so documents still queued at cancellation remain there. -/
theorem C1_shutdown_amended (cfg : SinkCfg) (s : SinkSnap) (r1 r2 : PostResult) :
    (cancelFinalFlush cfg s r1 r2).pending = [] ∧
    (cancelFinalFlush cfg s r1 r2).queue = s.queue :=
  ⟨flushStep_pendingAfter cfg s.pending r1 r2, rfl⟩

/-- Claim C1, witness: the amended theorem applied at a concrete snapshot. -/
theorem C1_shutdown_witness :
    (cancelFinalFlush cfgEx ⟨[], ["a".data, "s".data], 0, 0⟩ okResp okResp).pending = [] ∧
    (cancelFinalFlush cfgEx ⟨[], ["a".data, "s".data], 0, 0⟩ okResp okResp).queue = [] :=
  C1_shutdown_amended cfgEx ⟨[], ["a".data, "s".data], 0, 0⟩ okResp okResp

/-- Claim C2, counterexample: in collector.py a text frame whose JSON decoding
fails is not dropped: the raw text is wrapped as a payload and the resulting
document is enqueued (one document appears), while the stream stays open. -/
theorem C2_decode_failure_counterexample :
    (colFrameStep none ⟨true, []⟩ (.text "oops".data none)).enqueued.length = 1 ∧
    (colFrameStep none ⟨true, []⟩ (.text "oops".data none)).streamOpen = true :=
  ⟨rfl, rfl⟩

/-- Claim C2, amended: on a JSON decode failure the stream stays open in both
implementations and the reconnect counter is untouched; audiohook_collector.py
logs and drops the frame (the whole state is unchanged), while collector.py
wraps the raw text under the key raw, normalizes the wrapper and enqueues the
resulting document. -/
theorem C2_decode_failure_amended :
    (∀ (s : AhStream) (raw : List Char), ahFrameStep s (.text raw none) = s) ∧
    (∀ (chan : Option (List Char)) (raw : List Char) (q : List NormDoc),
        colFrameStep chan ⟨true, q⟩ (.text raw none) =
          ⟨true, q ++ [rawWrapDoc chan raw]⟩) := by
  constructor
  · intro s raw
    unfold ahFrameStep
    split
    · rfl
    · rfl
  · intro chan raw q
    rfl

/-- Claim C3, counterexample: in collector.py, when the stream closes and the
subsequent channel recreation fails, the next iteration reconnects using the
connect address of the channel whose stream already closed; the second logged
open is stale.  This refutes the claim that a closed connect address is never
reused. -/
theorem C3_reconnect_counterexample :
    (colSupRun [false, true]).opens = [(0, false), (0, true)] ∧
    noStaleOpens (colSupRun [false, true]).opens = false :=
  ⟨rfl, rfl⟩

/-- Claim C3, amended: after every stream closure the collector.py supervisor
does call create_channel again (once per closure, even after a clean close),
and when every recreation succeeds no connect attempt ever reuses a closed
address; audiohook_collector.py clears the address after every closure, so it
never reuses a closed address regardless of setup failures. -/
theorem C3_reconnect_amended :
    (∀ evs : List Bool, (colSupRun evs).recreates = evs.length) ∧
    (∀ evs : List Bool, evs.all id = true → noStaleOpens (colSupRun evs).opens = true) ∧
    (∀ evs : List Bool, noStaleOpens (ahSupRun evs).opens = true) := by
  refine ⟨?_, ?_, ?_⟩
  · intro evs
    have h := colSupRun_recreates_aux evs colSupInit
    simpa [colSupRun, colSupInit] using h
  · intro evs hall
    have hinv := colSupRun_inv_aux evs colSupInit hall colSupInit_inv
    exact noStaleOpens_of_forall _ hinv.2.2.2
  · intro evs
    have hinv := ahSupRun_inv_aux evs ahSupInit ahSupInit_inv
    exact noStaleOpens_of_forall _ hinv.2.2

/-- Claim C3, witness: the amended theorem applied at concrete runs. -/
theorem C3_reconnect_witness :
    ([true, true].all id = true) ∧
    (colSupRun [true, true]).recreates = [true, true].length ∧
    noStaleOpens (colSupRun [true, true]).opens = true ∧
    noStaleOpens (ahSupRun [false, true]).opens = true :=
  ⟨rfl, C3_reconnect_amended.1 [true, true],
   C3_reconnect_amended.2.1 [true, true] rfl,
   C3_reconnect_amended.2.2 [false, true]⟩

/-- Claim C4: a flush whose first POST returns a transient status performs
exactly one retry (two POSTs in total) after one sleep of RETRY_BASE_SLEEP;
a retry with status below 300 counts all documents delivered and no error, a
retry with status at least 300 or a retry exception increments the error
counter exactly once and counts nothing delivered; the batch is dropped in
every case and no further retry happens. -/
theorem C4_transient_retry (cfg : SinkCfg) (pending : List (List Char))
    (s1 : Nat) (body : BulkBody) (r2 : PostResult)
    (hp : pending ≠ []) (ht : isTransient s1 = true) :
    (flushStep cfg pending (.resp s1 body) r2).posts = 2 ∧
    (flushStep cfg pending (.resp s1 body) r2).sleeps = [cfg.retryBaseSleep] ∧
    (flushStep cfg pending (.resp s1 body) r2).pendingAfter = [] ∧
    (∀ s2 b2, r2 = .resp s2 b2 → ¬ 300 ≤ s2 →
      (flushStep cfg pending (.resp s1 body) r2).sentInc = pending.length / 2 ∧
      (flushStep cfg pending (.resp s1 body) r2).errInc = 0) ∧
    (∀ s2 b2, r2 = .resp s2 b2 → 300 ≤ s2 →
      (flushStep cfg pending (.resp s1 body) r2).errInc = 1 ∧
      (flushStep cfg pending (.resp s1 body) r2).sentInc = 0) ∧
    (r2 = .exn →
      (flushStep cfg pending (.resp s1 body) r2).errInc = 1 ∧
      (flushStep cfg pending (.resp s1 body) r2).sentInc = 0) := by
  have hn200 : ¬ (s1 = 200 ∨ s1 = 201) := by
    simp only [isTransient, Bool.or_eq_true, decide_eq_true_eq] at ht
    rcases ht with h | h | h | h | h <;> omega
  obtain ⟨p, ps, rfl⟩ : ∃ p ps, pending = p :: ps := by
    cases pending with
    | nil => exact absurd rfl hp
    | cons p ps => exact ⟨p, ps, rfl⟩
  cases r2 with
  | exn =>
    refine ⟨?_, ?_, ?_, ?_, ?_, ?_⟩ <;>
      simp [flushStep, flushCore, if_neg hn200, ht]
  | resp s2 b2 =>
    by_cases h2 : 300 ≤ s2
    · refine ⟨?_, ?_, ?_, ?_, ?_, ?_⟩ <;>
        · simp [flushStep, flushCore, if_neg hn200, ht, if_pos h2]
          try omega
    · refine ⟨?_, ?_, ?_, ?_, ?_, ?_⟩ <;>
        · simp [flushStep, flushCore, if_neg hn200, ht, if_neg h2]
          try omega

/-- Claim C4, witness: a 503 first response followed by a 200 retry on a batch
of one document. -/
theorem C4_transient_retry_witness :
    (["a".data, "s".data] ≠ ([] : List (List Char))) ∧
    isTransient 503 = true ∧
    (flushStep cfgEx ["a".data, "s".data] (.resp 503 (.parsed false)) okResp).posts = 2 ∧
    (flushStep cfgEx ["a".data, "s".data] (.resp 503 (.parsed false)) okResp).sleeps =
      [cfgEx.retryBaseSleep] ∧
    (flushStep cfgEx ["a".data, "s".data] (.resp 503 (.parsed false)) okResp).sentInc = 1 ∧
    (flushStep cfgEx ["a".data, "s".data] (.resp 503 (.parsed false)) okResp).errInc = 0 := by
  have h := C4_transient_retry cfgEx ["a".data, "s".data] 503 (.parsed false) okResp
    (by simp) rfl
  have hr := h.2.2.2.1 200 (.parsed false) rfl (by omega)
  exact ⟨by simp, rfl, h.1, h.2.1, hr.1, hr.2⟩

/-- Claim C5: a worker calls flush exactly when the pending line count reaches
BULK_MAX_DOCS * 2 (two lines per document) or the elapsed time since the last
flush reaches BULK_MAX_SECONDS; and with max docs 3 and max seconds 100,
three documents arriving at time zero produce exactly one flush at time zero,
delivering all three without waiting for the deadline. -/
theorem C5_flush_trigger :
    (∀ (cfg : SinkCfg) (st : WIterState) (inp : WInput) (r1 r2 : PostResult),
        (workerIter cfg st inp r1 r2).2 = true ↔
          (cfg.maxDocs * 2 ≤ (wInputPending st inp).length ∨
            cfg.maxSeconds ≤ wInputNow cfg st inp - st.lastFlush)) ∧
    ((workerRun cfgEx ⟨[], 0, 0, 0, 0⟩ c5script).2 = 1 ∧
     (workerRun cfgEx ⟨[], 0, 0, 0, 0⟩ c5script).1.sent = 3 ∧
     (workerRun cfgEx ⟨[], 0, 0, 0, 0⟩ c5script).1.errors = 0 ∧
     (workerRun cfgEx ⟨[], 0, 0, 0, 0⟩ c5script).1.now = 0 ∧
     (workerRun cfgEx ⟨[], 0, 0, 0, 0⟩ c5script).1.pending = []) := by
  constructor
  · intro cfg st inp r1 r2
    show flushTriggered cfg st inp = true ↔ _
    simp [flushTriggered, Bool.or_eq_true, decide_eq_true_eq]
  · norm_num [workerRun, workerIter, workerIterState, flushTriggered, wInputNow,
      wInputPending, flushStep, flushCore, isTransient, cfgEx, c5script, okResp]

/-- Claim C6: with floor 1.5, growth 1.7 and ceiling 30 the backoff delay is
non-decreasing across consecutive failures and never exceeds the ceiling, the
first sleeps are 1.5, 2.55, 4.335, and a successful connect resets the delay
to the floor before the next sleep. -/
theorem C6_backoff :
    (∀ n, failSleep cfgColBackoff (3/2) n ≤ failSleep cfgColBackoff (3/2) (n + 1)) ∧
    (∀ n, failSleep cfgColBackoff (3/2) n ≤ 30) ∧
    (failSleep cfgColBackoff (3/2) 0 = 3/2 ∧
     failSleep cfgColBackoff (3/2) 1 = 51/20 ∧
     failSleep cfgColBackoff (3/2) 2 = 867/200) ∧
    (∀ b : ℚ, (wsIterBackoff cfgColBackoff b true).1 = 3/2) := by
  have e1 : failSleep cfgColBackoff (3/2) 1 = 51/20 := by
    show min ((3:ℚ)/2 * (17/10)) 30 = 51/20
    rw [min_eq_left (by norm_num)]
    norm_num
  have e2 : failSleep cfgColBackoff (3/2) 2 = 867/200 := by
    show backoffNext cfgColBackoff (failSleep cfgColBackoff (3/2) 1) = 867/200
    rw [e1]
    show min ((51:ℚ)/20 * (17/10)) 30 = 867/200
    rw [min_eq_left (by norm_num)]
    norm_num
  exact ⟨failSleep_mono, fun n => (failSleep_bounds n).2, ⟨rfl, e1, e2⟩, fun b => rfl⟩

/-- Claim C7, counterexample: an input severity critical produces the document
severity CRITICAL, which is not one of ERROR, WARN, INFO, so the document
severity field is not mapped into that set. -/
theorem C7_severity_counterexample :
    sevOfResult (handle_event none (.obj [(kSeverity, .str "critical".data)])) =
      "CRITICAL".data ∧
    ("CRITICAL".data ≠ "ERROR".data ∧ "CRITICAL".data ≠ "WARN".data ∧
      "CRITICAL".data ≠ "INFO".data) :=
  ⟨rfl, by decide⟩

/-- Claim C7, amended: the severity field of the produced document is the
uppercased input severity verbatim (empty when absent); the fixed alias sets
are used only to classify the event for the severity counters, where ERROR,
CRITICAL and SEVERE count as errors, WARN and WARNING as warnings, and any
other value, recognized or not, counts as info. -/
theorem C7_severity_amended :
    (∀ (chan : Option (List Char)) (s : List Char),
        sevOfResult (handle_event chan (.obj [(kSeverity, .str s)])) =
          s.map Char.toUpper ∧
        bucketOfResult (handle_event chan (.obj [(kSeverity, .str s)])) =
          sevClassify (s.map Char.toUpper) ∧
        okOfResult (handle_event chan (.obj [(kSeverity, .str s)])) = true) ∧
    (sevClassify "ERROR".data = .errB ∧ sevClassify "CRITICAL".data = .errB ∧
     sevClassify "SEVERE".data = .errB ∧ sevClassify "WARN".data = .warnB ∧
     sevClassify "WARNING".data = .warnB ∧ sevClassify "DEBUG".data = .infoB ∧
     sevClassify [] = .infoB) := by
  constructor
  · intro chan s
    cases s with
    | nil => exact ⟨rfl, rfl, rfl⟩
    | cons c cs => exact ⟨rfl, rfl, rfl⟩
  · exact ⟨by decide, by decide, by decide, by decide, by decide, by decide, by decide⟩

/-- Claim C8, counterexample: audiohook_collector.py classifies a message by
its event body alone — a message whose topic name contains audiohook but
whose event id is SYSTEM-0001 with no matching entity type or name is not
classified, although the keyword appears in the topic name; so its predicate
does not return true exactly when the keyword appears in code, component or
topic. -/
theorem C8_classification_counterexample :
    handle_websocket_message (.obj [(kTopicName, .str "platform.integration.audiohook".data),
      (kEventBody, .obj [(kEventEntity, .obj [(kId, .str "SYSTEM-0001".data)])])]) =
      .ok false ∧
    specClassify "SYSTEM-0001".data [] "platform.integration.audiohook".data = true :=
  ⟨rfl, rfl⟩

/-- Claim C8, amended: the collector.py predicate returns true exactly when a
case-insensitive match for audiohook appears in the code field, the component
field or the topic name (and the two cited example events classify true and
false respectively, in both implementations); the audiohook_collector.py
variant instead tests whether eventEntity.id starts with AUDIOHOOK- (case
sensitive) or audiohook occurs case-insensitively in entityType or in
eventEntity.name, and ignores the topic entirely. -/
theorem C8_classification_amended :
    (∀ a b t : List Char, is_audiohook_heuristic a b (lowerL t) = specClassify a b t) ∧
    (ahFlagOfResult (handle_event none
        (.obj [("code".data, .str "AUDIOHOOK-0001".data)])) = true) ∧
    (ahFlagOfResult (handle_event none
        (.obj [("code".data, .str "SYSTEM-0001".data)])) = false) ∧
    (is_audiohook_event [(kEventEntity, .obj [(kId, .str "AUDIOHOOK-0001".data)]),
        (kEntityType, .str "integration".data)] = .ok true) ∧
    (is_audiohook_event [(kEventEntity, .obj [(kId, .str "SYSTEM-0001".data),
        (kName, .str "System event".data)]),
        (kEntityType, .str "system".data)] = .ok false) ∧
    (∀ t1 t2 b : JVal,
        handle_websocket_message (.obj [(kTopicName, t1), (kEventBody, b)]) =
          handle_websocket_message (.obj [(kTopicName, t2), (kEventBody, b)])) :=
  ⟨heuristic_eq_specClassify, rfl, rfl, rfl, rfl, fun _ _ _ => rfl⟩

/-- Claim C9, counterexample: a payload whose severity field is the number 5
makes the normalizer raise (the .upper call on a non-string), so the
normalizer does not tolerate fields of unexpected types. -/
theorem C9_normalizer_counterexample :
    handle_event none (.obj [(kSeverity, .num 5)]) = .error () ∧
    okOfResult (handle_event none (.obj [(kSeverity, .num 5)])) = false :=
  ⟨rfl, rfl⟩

/-- Claim C9, amended: the normalizer never raises on a dict payload whose
topic value and extracted severity are strings or falsy: missing fields,
non-dict bodies and absent keys are all tolerated, and on the empty payload
every extracted field is absent (the severity is the empty string, the
classification flag is false, the bucket is info). -/
theorem C9_normalizer_amended :
    (∀ (fields : List (List Char × JVal)) (chan : Option (List Char)),
      strOrFalsy (topicValOf fields) = true →
      strOrFalsy (sevValOf fields) = true →
      okOfResult (handle_event chan (.obj fields)) = true) ∧
    (∀ chan, handle_event chan (.obj []) =
      .ok { doc := { topic := .null, channel := chan, code := none, severity := [],
                     entityId := none, integrationId := none, component := none,
                     isAudioHook := false, event := [] },
            bucket := .infoB }) := by
  constructor
  · intro fields chan h1 h2
    obtain ⟨s, hs⟩ := sevValOf_str fields h2
    obtain ⟨t, ht⟩ := topicOr_str fields h1
    simp only [handle_event, hs, ht, pyUpperJ, pyLowerJ, okOfResult]
  · intro chan
    rfl

/-- Claim C9, witness: the amended theorem applied at the empty payload. -/
theorem C9_normalizer_witness :
    strOrFalsy (topicValOf []) = true ∧ strOrFalsy (sevValOf []) = true ∧
    okOfResult (handle_event none (.obj [])) = true :=
  ⟨rfl, rfl, C9_normalizer_amended.1 [] none rfl rfl⟩

/-- Claim C10: a flush whose POST returns 200 or 201 with a response body that
fails to parse as JSON increments neither the delivered counter nor the error
counter, performs no retry, and still clears the pending batch. -/
theorem C10_parse_warn (cfg : SinkCfg) (pending : List (List Char))
    (s : Nat) (r2 : PostResult)
    (hp : pending ≠ []) (hs : s = 200 ∨ s = 201) :
    (flushStep cfg pending (.resp s .unparseable) r2).sentInc = 0 ∧
    (flushStep cfg pending (.resp s .unparseable) r2).errInc = 0 ∧
    (flushStep cfg pending (.resp s .unparseable) r2).posts = 1 ∧
    (flushStep cfg pending (.resp s .unparseable) r2).pendingAfter = [] := by
  obtain ⟨p, ps, rfl⟩ : ∃ p ps, pending = p :: ps := by
    cases pending with
    | nil => exact absurd rfl hp
    | cons p ps => exact ⟨p, ps, rfl⟩
  simp [flushStep, flushCore, if_pos hs]

/-- Claim C10, witness: a 200 response with an unparseable body on a batch of
one document. -/
theorem C10_parse_warn_witness :
    (["a".data, "s".data] ≠ ([] : List (List Char))) ∧
    ((200 : Nat) = 200 ∨ (200 : Nat) = 201) ∧
    (flushStep cfgEx ["a".data, "s".data] (.resp 200 .unparseable) okResp).sentInc = 0 ∧
    (flushStep cfgEx ["a".data, "s".data] (.resp 200 .unparseable) okResp).errInc = 0 ∧
    (flushStep cfgEx ["a".data, "s".data] (.resp 200 .unparseable) okResp).posts = 1 ∧
    (flushStep cfgEx ["a".data, "s".data] (.resp 200 .unparseable) okResp).pendingAfter = [] := by
  have h := C10_parse_warn cfgEx ["a".data, "s".data] 200 okResp (by simp) (Or.inl rfl)
  exact ⟨by simp, Or.inl rfl, h.1, h.2.1, h.2.2.1, h.2.2.2⟩

end GenesysCollector

